import Mathlib

/-!
Verification of the Energy-Efficient-VM-Consolidation repository.

The React UI (src/src/pages/Dashboard.jsx, Optimize.jsx, mlSimulation.jsx)
is embedded shallowly: component state becomes a structure, each event
handler becomes a pure function on that structure.  The Python ML backend
(vmp/ml_model_comparison.py, vmp/ml_api_server.py) is not part of the
source tree; the parts of it that claims depend on are modelled from the
specification, each such definition carries a doc comment saying so.
-/

namespace VMC

/-- A JSON-like value, used for request/response payloads the UI moves
around without inspecting their inner structure. -/
inductive JVal where
  | num : ℚ → JVal
  | str : String → JVal
  | arr : List JVal → JVal
  | obj : List (String × JVal) → JVal

/-- Field access `j.k` on a JSON object. -/
def JVal.getField (j : JVal) (k : String) : Option JVal :=
  match j with
  | .obj fs => fs.lookup k
  | _ => none

/-- `Object.entries` of a JSON object (empty for non-objects). -/
def JVal.entries (j : JVal) : List (String × JVal) :=
  match j with
  | .obj fs => fs
  | _ => []

/-! ## Dashboard.jsx (src/src/pages/Dashboard.jsx) -/

/-- One sample returned by the metrics endpoint.  Fields may be absent in
the JSON object, so they are options; the Dashboard reads them with
a zero default (the JS `?? 0`). -/
structure MetricSample where
  cpu : Option ℚ
  memory : Option ℚ
  disk : Option ℚ
  time : Option String
deriving Repr, DecidableEq

/-- `setMetricsHistory((prev) => [...prev.slice(-11), data])` from
Dashboard.jsx line 35: keep the newest eleven entries of the previous
history and append the fresh sample.  JS `slice(-11)` on an array of
length `n` returns the last `min n 11` elements, which is
`drop (n - 11)` with truncated subtraction. -/
def updateHistory (prev : List MetricSample) (data : MetricSample) :
    List MetricSample :=
  prev.drop (prev.length - 11) ++ [data]

/-- Metrics history reached from the initial empty state after a sequence
of poll results. -/
def historyAfter (polls : List MetricSample) : List MetricSample :=
  polls.foldl updateHistory []

/-- `healthStatus` from Dashboard.jsx lines 63-68: thresholds on the
latest sample's cpu and memory, missing values defaulting to 0. -/
def healthStatus (cpu memory : Option ℚ) : String :=
  if cpu.getD 0 < 70 ∧ memory.getD 0 < 70 then "Healthy ✅"
  else if cpu.getD 0 < 85 ∧ memory.getD 0 < 85 then "Warning ⚠"
  else "Critical 🔴"

/-- The health label the Dashboard shows for a metrics history: computed
from the last sample, or from an empty object when the history is empty
(`metricsHistory[metricsHistory.length - 1] || {}`). -/
def dashboardHealth (h : List MetricSample) : String :=
  match h.getLast? with
  | some s => healthStatus s.cpu s.memory
  | none => healthStatus none none

/-! ## Optimize.jsx (src/src/pages/Optimize.jsx) -/

/-- The Optimize page's form state (line 8). -/
structure OptimizeForm where
  vm : String
  cpu : ℚ
  memory : ℚ
  network_io : ℚ
  power : ℚ
deriving Repr, DecidableEq

/-- The objective-weight state (line 9). -/
structure Weights where
  cost : ℚ
  energy : ℚ
  load : ℚ
deriving Repr, DecidableEq

/-- Body of the POST to `/api/v1/predict` (line 40): the form fields plus
the weights. -/
structure OptimizeRequest where
  vm : String
  cpu : ℚ
  memory : ℚ
  network_io : ℚ
  power : ℚ
  weights : Weights
deriving Repr, DecidableEq

/-- `handlePredict` from Optimize.jsx lines 31-41 up to the point where
the network request is issued: the guard `if(!form.vm) return;` means no
request is produced when the vm field is the empty string (the only falsy
string in JS). -/
def handlePredict (form : OptimizeForm) (weights : Weights) :
    Option OptimizeRequest :=
  if form.vm = "" then none
  else some ⟨form.vm, form.cpu, form.memory, form.network_io, form.power,
    weights⟩

/-- The `disabled={loading || !form.vm}` condition of the Predict
Placement button (Optimize.jsx line 104). -/
def predictButtonDisabled (loading : Bool) (form : OptimizeForm) : Bool :=
  loading || form.vm == ""

/-! ## MLComparison page (src/src/pages/mlSimulation.jsx)

The second component in mlSimulation.jsx, the one mounted at
`/ml-comparison`, lines 681 onward. -/

/-- The `predictionInput` state object (lines 688-694). -/
structure PredictionInput where
  cpu : ℚ
  memory : ℚ
  network_io : ℚ
  power : ℚ
  vm : String
deriving Repr, DecidableEq

/-- The initial value of `predictionInput` (lines 688-694). -/
def initialPredictionInput : PredictionInput :=
  ⟨50, 16, 5 / 2, 200, "VM1"⟩

/-- One form-field change: each `onChange` handler replaces exactly one
field via object spread (lines 1016-1075). -/
inductive InputEvent where
  | setCpu (x : ℚ)
  | setMemory (x : ℚ)
  | setNetworkIo (x : ℚ)
  | setPower (x : ℚ)
  | setVm (v : String)

/-- `setPredictionInput({...predictionInput, field: value})`. -/
def applyInputEvent (s : PredictionInput) : InputEvent → PredictionInput
  | .setCpu x => { s with cpu := x }
  | .setMemory x => { s with memory := x }
  | .setNetworkIo x => { s with network_io := x }
  | .setPower x => { s with power := x }
  | .setVm v => { s with vm := v }

/-- The form state reached after a sequence of field edits. -/
def inputAfter (es : List InputEvent) : PredictionInput :=
  es.foldl applyInputEvent initialPredictionInput

/-- `JSON.stringify(predictionInput)` (line 804): the request body sent
to POST /api/ml/predict, as an ordered list of key/value pairs. -/
def predictRequestBody (s : PredictionInput) : List (String × JVal) :=
  [("cpu", .num s.cpu), ("memory", .num s.memory),
   ("network_io", .num s.network_io), ("power", .num s.power),
   ("vm", .str s.vm)]

/-- A decoded JSON response body from one of the ML endpoints, as the UI
reads it: `data.status`, `data.message`, and the rest of the body. -/
structure ApiResponse where
  status : String
  message : String
  payload : JVal

/-- The MLComparison component state touched by the response handlers. -/
structure MLCompState where
  models : List (String × JVal)
  performance : JVal
  featureImportance : JVal
  predictionResult : Option JVal
  error : Option String
  loading : Bool

/-- Initial MLComparison state (lines 682-687): empty data, no error. -/
def initialMLState : MLCompState :=
  ⟨[], .arr [], .arr [], none, none, false⟩

/-- Response handling inside `initializeModels` (lines 714-727): on
success the handler only triggers the follow-up loads, on any other
status it stores `data.message` as the error; `finally` clears the
loading flag. -/
def onInitModelsResponse (st : MLCompState) (r : ApiResponse) :
    MLCompState :=
  if r.status = "success" then { st with loading := false }
  else { st with error := some r.message, loading := false }

/-- Response handling inside `loadResults` (lines 735-739): on success
store `Object.entries(data.results)`, otherwise do nothing at all. -/
def onResultsResponse (st : MLCompState) (r : ApiResponse) :
    MLCompState :=
  if r.status = "success" then
    { st with
      models := ((r.payload.getField "results").getD (.obj [])).entries }
  else st

/-- Response handling inside `loadPerformance` (lines 751-753): on
success store `data.performance_metrics`, otherwise do nothing. -/
def onPerformanceResponse (st : MLCompState) (r : ApiResponse) :
    MLCompState :=
  if r.status = "success" then
    { st with
      performance := (r.payload.getField "performance_metrics").getD
        (.arr []) }
  else st

/-- Response handling inside `loadFeatureImportance` (lines 764-766): on
success store `data.feature_importance`, otherwise do nothing. -/
def onFeatureImportanceResponse (st : MLCompState) (r : ApiResponse) :
    MLCompState :=
  if r.status = "success" then
    { st with
      featureImportance := (r.payload.getField "feature_importance").getD
        (.arr []) }
  else st

/-- Response handling inside `runHyperparameterTuning` (lines 784-789):
on success only the follow-up loads run, otherwise `data.message`
becomes the error; `finally` clears loading. -/
def onTuningResponse (st : MLCompState) (r : ApiResponse) :
    MLCompState :=
  if r.status = "success" then { st with loading := false }
  else { st with error := some r.message, loading := false }

/-- Response handling inside `predictPlacement` (lines 809-813): on
success store the whole body as the prediction result, otherwise
`data.message` becomes the error. -/
def onPredictResponse (st : MLCompState) (r : ApiResponse) :
    MLCompState :=
  if r.status = "success" then
    { st with predictionResult := some r.payload }
  else { st with error := some r.message }

/-- The Dismiss button (line 937): `onClick={() => setError(null)}`. -/
def dismissError (st : MLCompState) : MLCompState :=
  { st with error := none }

/-! ## ML backend model

The Python backend (vmp/ml_model_comparison.py and vmp/ml_api_server.py)
is not part of the source tree; only its README and its callers are.
The definitions below are therefore modelled from the specification
(sections 3, 4.2, 4.4, 4.5, 6 and 7 of spec.md plus
vmp/ML_COMPARISON_README.md); each doc comment says what it models. -/

/-- Modelled from the spec: one row of VM metrics (spec section 3), with
columns cpu_usage, memory, network_io, power, vm, host. -/
structure Sample where
  cpu_usage : ℚ
  memory : ℚ
  network_io : ℚ
  power : ℚ
  vm : String
  host : String
deriving Repr, DecidableEq

/-- Modelled from the spec: derived feature
resource_intensity = cpu_usage + memory (spec section 3). -/
def resourceIntensity (cpu memory : ℚ) : ℚ := cpu + memory

/-- Modelled from the spec: derived feature
power_efficiency = power / cpu_usage, guarded against division by zero
(spec section 3 and section 8); the guard yields 0 at cpu_usage = 0. -/
def powerEfficiency (power cpu : ℚ) : ℚ :=
  if cpu = 0 then 0 else power / cpu

/-- Modelled from the spec: label encoding of a categorical name as an
integer code; a name unseen at encoding time maps to the reserved code
equal to the number of known names (spec section 4.2 asks for a reserved
unknown code rather than a crash), which is what indexOf returns. -/
def encodeName (names : List String) (n : String) : ℕ :=
  names.indexOf n

/-- Modelled from the spec: inverse label encoding with the
nearest-valid-code policy of spec section 9: round the regression output
to the nearest integer and clamp it into the valid code range. -/
def decodeHost (hosts : List String) (code : ℚ) : String :=
  hosts.getD (min (round code).toNat (hosts.length - 1)) "Unknown"

/-- A raw prediction input, the decoded body of POST /api/ml/predict
(spec section 6). -/
structure RawInput where
  cpu : ℚ
  memory : ℚ
  network_io : ℚ
  power : ℚ
  vm : String
deriving Repr, DecidableEq

/-- Modelled from the spec: the feature vector built from a raw input by
the Feature Builder (spec section 4.2): the four numeric columns, the
encoded vm code, and the two derived features. -/
def buildFeatures (vms : List String) (x : RawInput) : List ℚ :=
  [x.cpu, x.memory, x.network_io, x.power, (encodeName vms x.vm : ℚ),
   resourceIntensity x.cpu x.memory, powerEfficiency x.power x.cpu]

/-- The raw-input view of a dataset row. -/
def Sample.rawInput (s : Sample) : RawInput :=
  ⟨s.cpu_usage, s.memory, s.network_io, s.power, s.vm⟩

/-- Modelled from the spec: a Model Registry entry (spec section 4.3) —
a named estimator.  The library estimator is abstracted as a fitting
function from training pairs to a predictor; every random seed is part
of the fixed configuration, so fitting is a pure function. -/
structure Estimator where
  name : String
  fit : List (List ℚ × ℚ) → (List ℚ → ℚ)

/-- Evaluation metrics of one model (spec section 3). -/
structure Metrics where
  mse : ℚ
  r2 : ℚ
  mae : ℚ
deriving Repr, DecidableEq

/-- Mean of a list of rationals (0 for the empty list). -/
def meanQ (l : List ℚ) : ℚ :=
  if l.length = 0 then 0 else l.sum / l.length

/-- Modelled from the spec: mean squared error of a predictor on test
pairs (spec glossary). -/
def mseOf (f : List ℚ → ℚ) (test : List (List ℚ × ℚ)) : ℚ :=
  meanQ (test.map fun p => (p.2 - f p.1) ^ 2)

/-- Modelled from the spec: mean absolute error of a predictor on test
pairs (spec glossary). -/
def maeOf (f : List ℚ → ℚ) (test : List (List ℚ × ℚ)) : ℚ :=
  meanQ (test.map fun p => |p.2 - f p.1|)

/-- Modelled from the spec: coefficient of determination
R2 = 1 - SSres / SStot on test pairs (spec glossary), with a zero total
sum of squares guarded to 0. -/
def r2Of (f : List ℚ → ℚ) (test : List (List ℚ × ℚ)) : ℚ :=
  let ybar := meanQ (test.map Prod.snd)
  let ssTot := (test.map fun p => (p.2 - ybar) ^ 2).sum
  let ssRes := (test.map fun p => (p.2 - f p.1) ^ 2).sum
  if ssTot = 0 then 0 else 1 - ssRes / ssTot

/-- Modelled from the spec: the deterministic seed-driven shuffle of the
dataset before splitting (spec section 3 asks only that the permutation
be fully determined by the fixed seed; it is modelled as rotation by the
seed). -/
def shuffle (seed : ℕ) (l : List Sample) : List Sample :=
  l.rotate seed

/-- Modelled from the spec: the deterministic 80/20 train/test split
(spec sections 3 and 4.4): shuffle by the seed, take 20 percent of the
rows as the test subset and the remaining 80 percent as the training
subset. -/
def trainTestSplit (seed : ℕ) (data : List Sample) :
    List Sample × List Sample :=
  let shuffled := shuffle seed data
  let nTest := data.length / 5
  (shuffled.drop nTest, shuffled.take nTest)

/-- Feature/label pair of a dataset row (spec section 4.2: the target is
the encoded host label). -/
def toPair (vms hosts : List String) (s : Sample) : List ℚ × ℚ :=
  (buildFeatures vms s.rawInput, (encodeName hosts s.host : ℚ))

/-- A model after a training run: name, fitted predictor, metrics. -/
structure TrainedModel where
  name : String
  predictFn : List ℚ → ℚ
  metrics : Metrics

/-- Modelled from the spec: fit one registry entry on the training split
and score it on the test split (spec section 4.4). -/
def trainOne (vms hosts : List String) (e : Estimator)
    (train test : List Sample) : TrainedModel :=
  let trainPairs := train.map (toPair vms hosts)
  let testPairs := test.map (toPair vms hosts)
  let f := e.fit trainPairs
  ⟨e.name, f, ⟨mseOf f testPairs, r2Of f testPairs, maeOf f testPairs⟩⟩

/-- The ML server state: dataset, seed, registry and the current trained
snapshot (spec sections 2 and 5). -/
structure ServerState where
  hosts : List String
  vms : List String
  data : List Sample
  seed : ℕ
  registry : List Estimator
  trained : List TrainedModel

/-- A freshly started server: no training run has completed yet, so the
trained snapshot is empty (spec section 3 invariant). -/
def initServer (hosts vms : List String) (data : List Sample) (seed : ℕ)
    (registry : List Estimator) : ServerState :=
  ⟨hosts, vms, data, seed, registry, []⟩

/-- Modelled from the spec: train_all (spec section 4.4) — split the
dataset, fit every registry entry on the training split and score it on
the test split, overwriting the trained snapshot. -/
def trainAll (st : ServerState) : ServerState :=
  let p := trainTestSplit st.seed st.data
  { st with
    trained := st.registry.map fun e => trainOne st.vms st.hosts e p.1 p.2 }

/-- Keep whichever of two trained models has the higher recorded R2
(the earlier one on ties). -/
def pickBetter (a b : TrainedModel) : TrainedModel :=
  if a.metrics.r2 < b.metrics.r2 then b else a

/-- Modelled from the spec: the best-model designation — the trained
model with the highest last-recorded R2 (spec section 3). -/
def bestEntry : List TrainedModel → Option TrainedModel
  | [] => none
  | m :: rest => some (rest.foldl pickBetter m)

/-- The error kinds of spec section 7. -/
inductive MLError where
  | NotTrainedError
  | DataFormatError
  | UnknownCategoryError
  | FitFailure
  | ConfigError
deriving Repr, DecidableEq

/-- The body of a successful prediction (spec sections 3 and 6). -/
structure PredictionResult where
  recommended_host : String
  best_model : String
  confidence : ℚ
  all_predictions : List (String × ℚ)
deriving Repr, DecidableEq

/-- Modelled from the spec: predict (spec section 4.5) — with no trained
model the request fails with NotTrainedError (spec section 7: the only
condition that blocks prediction entirely); otherwise the input is run
through every trained model and the best model by last-recorded R2
yields the recommendation, decoded back to a host label. -/
def predict (st : ServerState) (x : RawInput) :
    Except MLError PredictionResult :=
  match bestEntry st.trained with
  | none => .error .NotTrainedError
  | some best =>
    let feats := buildFeatures st.vms x
    .ok ⟨decodeHost st.hosts (best.predictFn feats), best.name,
      best.metrics.r2,
      st.trained.map fun m => (m.name, m.predictFn feats)⟩

/-- Modelled from the spec: the JSON encoding of the prediction object
inside a successful /predict response (spec section 6). -/
def encodePrediction (r : PredictionResult) : JVal :=
  .obj [("recommended_host", .str r.recommended_host),
        ("best_model", .str r.best_model),
        ("confidence", .num r.confidence)]

/-- Modelled from the spec: the full body of a successful /predict
response (spec section 6): a status field plus the prediction object
plus the per-model prediction mapping. -/
def encodePredictResponse (r : PredictionResult) : List (String × JVal) :=
  [("status", .str "success"),
   ("prediction", encodePrediction r),
   ("all_predictions",
     .obj (r.all_predictions.map fun p => (p.1, JVal.num p.2)))]

/-- Modelled from the spec: every endpoint wraps a successful payload
with status "success" (spec section 7). -/
def mkSuccess (payload : JVal) : ApiResponse :=
  ⟨"success", "", payload⟩

/-- Modelled from the spec: every endpoint wraps a failure as status
"error" with a human-readable message (spec section 7). -/
def mkError (message : String) : ApiResponse :=
  ⟨"error", message, .obj []⟩

/-! ## Concrete fixtures

Concrete instances used to evaluate the definitions on closed inputs:
the host/vm catalogues of the README, the three dataset rows of the spec
section 8 scenario padded to five rows, and a pair of trained models. -/

/-- The default prediction form values of the UI. -/
def demoInput : RawInput := ⟨50, 16, 5 / 2, 200, "VM1"⟩

/-- A boundary input with cpu at its declared minimum 0. -/
def zeroCpuInput : RawInput := ⟨0, 16, 5 / 2, 100, "VM1"⟩

/-- Host catalogue. -/
def demoHosts : List String := ["H1", "H2"]

/-- VM catalogue. -/
def demoVms : List String := ["VM1", "VM2", "VM3"]

/-- Five dataset rows (the three spec scenario rows plus two). -/
def demoSamples : List Sample :=
  [⟨10, 2, 1 / 2, 120, "VM1", "H1"⟩,
   ⟨90, 30, 24 / 5, 290, "VM2", "H2"⟩,
   ⟨50, 16, 5 / 2, 200, "VM3", "H1"⟩,
   ⟨70, 8, 3 / 2, 240, "VM1", "H2"⟩,
   ⟨30, 4, 1, 150, "VM2", "H1"⟩]

/-- A trained model with recorded R2 of one half. -/
def demoTrainedA : TrainedModel :=
  ⟨"Decision Tree", fun _ => 0, ⟨0, 1 / 2, 0⟩⟩

/-- A trained model with recorded R2 of three quarters. -/
def demoTrainedB : TrainedModel :=
  ⟨"XGBoost", fun _ => 1, ⟨0, 3 / 4, 0⟩⟩

/-- A server on which no training run has completed. -/
def emptyServer : ServerState :=
  initServer demoHosts demoVms demoSamples 42 []

/-- A server with two trained models. -/
def demoServer : ServerState :=
  ⟨demoHosts, demoVms, demoSamples, 42, [], [demoTrainedA, demoTrainedB]⟩

/-- The prediction the model server returns on demoServer/demoInput. -/
def demoResult : PredictionResult :=
  ⟨"H2", "XGBoost", 3 / 4, [("Decision Tree", 0), ("XGBoost", 1)]⟩

/-! ## Helper lemmas -/

theorem length_updateHistory (prev : List MetricSample)
    (d : MetricSample) :
    (updateHistory prev d).length = min prev.length 11 + 1 := by
  simp [updateHistory]
  omega

theorem foldl_updateHistory_le (polls : List MetricSample) :
    ∀ init : List MetricSample, init.length ≤ 12 →
      (polls.foldl updateHistory init).length ≤ 12 := by
  induction polls with
  | nil => intro init h; simpa using h
  | cons p ps ih =>
    intro init h
    simp only [List.foldl_cons]
    apply ih
    rw [length_updateHistory]
    omega

theorem foldl_pickBetter_mem (m : TrainedModel)
    (rest : List TrainedModel) :
    rest.foldl pickBetter m ∈ m :: rest := by
  induction rest generalizing m with
  | nil => simp
  | cons b t ih =>
    simp only [List.foldl_cons]
    rcases List.mem_cons.mp (ih (pickBetter m b)) with h1 | h1
    · rw [h1]
      unfold pickBetter
      by_cases hc : m.metrics.r2 < b.metrics.r2 <;> simp [hc]
    · exact List.mem_cons_of_mem _ (List.mem_cons_of_mem _ h1)

theorem foldl_pickBetter_le (m : TrainedModel)
    (rest : List TrainedModel) :
    ∀ x ∈ m :: rest, x.metrics.r2 ≤ (rest.foldl pickBetter m).metrics.r2 := by
  induction rest generalizing m with
  | nil =>
    intro x hx
    rw [List.mem_singleton.mp hx]
    simp
  | cons b t ih =>
    intro x hx
    simp only [List.foldl_cons]
    have hmb : m.metrics.r2 ≤ (pickBetter m b).metrics.r2 := by
      unfold pickBetter
      by_cases hc : m.metrics.r2 < b.metrics.r2 <;> simp [hc]
      exact le_of_lt hc
    have hbb : b.metrics.r2 ≤ (pickBetter m b).metrics.r2 := by
      unfold pickBetter
      by_cases hc : m.metrics.r2 < b.metrics.r2 <;> simp [hc]
      exact le_of_not_lt hc
    rcases List.mem_cons.mp hx with h1 | h1
    · rw [h1]
      exact le_trans hmb
        (ih (pickBetter m b) _ (List.mem_cons_self _ _))
    · rcases List.mem_cons.mp h1 with h2 | h2
      · rw [h2]
        exact le_trans hbb
          (ih (pickBetter m b) _ (List.mem_cons_self _ _))
      · exact ih (pickBetter m b) x (List.mem_cons_of_mem _ h2)

theorem predict_err_of_nil (st : ServerState) (x : RawInput)
    (h : st.trained = []) :
    predict st x = .error .NotTrainedError := by
  unfold predict
  rw [h]
  rfl

theorem predict_ok_of_ne_nil (st : ServerState) (x : RawInput)
    (h : st.trained ≠ []) : ∃ r, predict st x = .ok r := by
  unfold predict
  cases htr : st.trained with
  | nil => exact absurd htr h
  | cons m rest =>
    exact ⟨_, rfl⟩

/-! ## Claim theorems -/

/-- C8: the Dashboard metrics history never holds more than 12 entries:
every metrics-poll update maps a history of length n to the min n 11
newest retained entries plus the new sample, the retained part is a
suffix of the previous history, length at most 12 is preserved by every
update, and every history reachable from the empty one stays within 12
entries. -/
theorem metrics_history_bounded :
    ∀ (prev : List MetricSample) (d : MetricSample),
      (updateHistory prev d).length = min prev.length 11 + 1 ∧
      (updateHistory prev d).length ≤ 12 ∧
      prev.drop (prev.length - 11) <:+ prev ∧
      ∀ polls : List MetricSample, (historyAfter polls).length ≤ 12 := by
  intro prev d
  refine ⟨length_updateHistory prev d, ?_, List.drop_suffix _ _, ?_⟩
  · rw [length_updateHistory]
    omega
  · intro polls
    exact foldl_updateHistory_le polls [] (by simp)

/-- C9: the Dashboard health status is a total function of the latest
cpu and memory values with missing values read as 0: it is the Healthy
label exactly when cpu < 70 and memory < 70, the Warning label exactly
when that fails while cpu < 85 and memory < 85, the Critical label
exactly in the remaining case, and exactly one of the three labels is
produced for every input. -/
theorem health_status_trichotomy :
    ∀ cpu memory : Option ℚ,
      (healthStatus cpu memory = "Healthy ✅" ↔
        cpu.getD 0 < 70 ∧ memory.getD 0 < 70) ∧
      (healthStatus cpu memory = "Warning ⚠" ↔
        (70 ≤ cpu.getD 0 ∨ 70 ≤ memory.getD 0) ∧
          cpu.getD 0 < 85 ∧ memory.getD 0 < 85) ∧
      (healthStatus cpu memory = "Critical 🔴" ↔
        (70 ≤ cpu.getD 0 ∨ 70 ≤ memory.getD 0) ∧
          (85 ≤ cpu.getD 0 ∨ 85 ≤ memory.getD 0)) ∧
      (healthStatus cpu memory = "Healthy ✅" ∨
        healthStatus cpu memory = "Warning ⚠" ∨
        healthStatus cpu memory = "Critical 🔴") := by
  intro cpu memory
  unfold healthStatus
  set c := cpu.getD 0 with hc
  set m := memory.getD 0 with hm
  by_cases h1 : c < 70 ∧ m < 70
  · rw [if_pos h1]
    refine ⟨by simp [h1], ?_, ?_, Or.inl rfl⟩
    · constructor
      · intro h
        exact absurd h (by decide)
      · rintro ⟨h70, _⟩
        rcases h70 with h | h
        · exact absurd h1.1 (not_lt.mpr h)
        · exact absurd h1.2 (not_lt.mpr h)
    · constructor
      · intro h
        exact absurd h (by decide)
      · rintro ⟨h70, _⟩
        rcases h70 with h | h
        · exact absurd h1.1 (not_lt.mpr h)
        · exact absurd h1.2 (not_lt.mpr h)
  · rw [if_neg h1]
    have h70 : 70 ≤ c ∨ 70 ≤ m := by
      rcases not_and_or.mp h1 with h | h
      · exact Or.inl (not_lt.mp h)
      · exact Or.inr (not_lt.mp h)
    by_cases h2 : c < 85 ∧ m < 85
    · rw [if_pos h2]
      refine ⟨?_, by simp [h70, h2], ?_, Or.inr (Or.inl rfl)⟩
      · constructor
        · intro h
          exact absurd h (by decide)
        · rintro ⟨hcl, hml⟩
          exact absurd ⟨hcl, hml⟩ h1
      · constructor
        · intro h
          exact absurd h (by decide)
        · rintro ⟨_, h85⟩
          rcases h85 with h | h
          · exact absurd h2.1 (not_lt.mpr h)
          · exact absurd h2.2 (not_lt.mpr h)
    · rw [if_neg h2]
      have h85 : 85 ≤ c ∨ 85 ≤ m := by
        rcases not_and_or.mp h2 with h | h
        · exact Or.inl (not_lt.mp h)
        · exact Or.inr (not_lt.mp h)
      refine ⟨?_, ?_, by simp [h70, h85], Or.inr (Or.inr rfl)⟩
      · constructor
        · intro h
          exact absurd h (by decide)
        · rintro ⟨hcl, hml⟩
          exact absurd ⟨hcl, hml⟩ h1
      · constructor
        · intro h
          exact absurd h (by decide)
        · rintro ⟨_, hcl, hml⟩
          exact absurd ⟨hcl, hml⟩ h2

/-- C10: the Optimize page never issues a placement prediction request
without a selected VM: with an empty vm field handlePredict produces no
request and the Predict button is disabled, and every request that is
produced carries a nonempty vm. -/
theorem optimize_no_vm_guard :
    ∀ (form : OptimizeForm) (w : Weights) (loading : Bool),
      (form.vm = "" →
        handlePredict form w = none ∧
        predictButtonDisabled loading form = true) ∧
      (∀ r, handlePredict form w = some r → r.vm ≠ "") := by
  intro form w loading
  constructor
  · intro h
    constructor
    · simp [handlePredict, h]
    · simp [predictButtonDisabled, h]
  · intro r hr
    unfold handlePredict at hr
    by_cases h : form.vm = ""
    · simp [h] at hr
    · rw [if_neg h] at hr
      cases hr
      exact h

/-- C10 witness: a concrete form with an empty vm field yields no
request and a disabled Predict button. -/
theorem optimize_no_vm_guard_witness :
    handlePredict ⟨"", 50, 16, 1, 150⟩ ⟨34 / 100, 33 / 100, 33 / 100⟩ =
        none ∧
      predictButtonDisabled false ⟨"", 50, 16, 1, 150⟩ = true :=
  (optimize_no_vm_guard ⟨"", 50, 16, 1, 150⟩ ⟨34 / 100, 33 / 100, 33 / 100⟩
      false).1 rfl

/-- C1: every prediction request body built from any reachable form
state carries exactly the fields cpu, memory, network_io, power and vm
in that order, and a successful /predict response body carries a status
field plus a prediction object with exactly the fields
recommended_host, best_model and confidence plus an all_predictions
object mapping each model name to its numeric predicted value — the
fields the UI reads. -/
theorem predict_interface_shape :
    ∀ es : List InputEvent,
      (predictRequestBody (inputAfter es)).map Prod.fst =
        ["cpu", "memory", "network_io", "power", "vm"] ∧
      ∀ r : PredictionResult,
        (encodePredictResponse r).map Prod.fst =
            ["status", "prediction", "all_predictions"] ∧
          (encodePrediction r).entries.map Prod.fst =
            ["recommended_host", "best_model", "confidence"] ∧
          (encodePrediction r).getField "recommended_host" =
            some (.str r.recommended_host) ∧
          (encodePrediction r).getField "best_model" =
            some (.str r.best_model) ∧
          (encodePrediction r).getField "confidence" =
            some (.num r.confidence) ∧
          (encodePredictResponse r).lookup "all_predictions" =
            some (.obj (r.all_predictions.map fun p =>
              (p.1, JVal.num p.2))) := by
  intro es
  refine ⟨rfl, ?_⟩
  intro r
  refine ⟨rfl, rfl, ?_, ?_, ?_, ?_⟩ <;>
    simp [encodePrediction, encodePredictResponse, JVal.getField,
      List.lookup]

/-- C2 counterexample: a results response with status other than
success does not surface its message as the visible error — the
loadResults handler ignores it, so the error stays empty instead of
holding the message, contrary to the claim that every non-success
response from the listed endpoints stores its message as the visible
error. -/
theorem results_error_not_surfaced :
    (onResultsResponse initialMLState
        ⟨"error", "Model training failed", JVal.obj []⟩).error ≠
      some "Model training failed" := by
  simp [onResultsResponse, initialMLState]

/-- C2 amended: for every non-success response, the initialize, predict
and hyperparameter-tuning handlers store the message as the visible
error and leave the data untouched, while the results, performance and
feature-importance handlers leave the state entirely unchanged (data
not applied, no error stored); the Dismiss action clears the visible
error, and in the spec model every endpoint response carries status
success or error. -/
theorem ml_error_handling_amended :
    ∀ (st : MLCompState) (r : ApiResponse), r.status ≠ "success" →
      ((onInitModelsResponse st r).error = some r.message ∧
        (onInitModelsResponse st r).models = st.models ∧
        (onInitModelsResponse st r).performance = st.performance ∧
        (onInitModelsResponse st r).featureImportance =
          st.featureImportance ∧
        (onInitModelsResponse st r).predictionResult =
          st.predictionResult) ∧
      ((onTuningResponse st r).error = some r.message ∧
        (onTuningResponse st r).models = st.models ∧
        (onTuningResponse st r).performance = st.performance ∧
        (onTuningResponse st r).featureImportance =
          st.featureImportance ∧
        (onTuningResponse st r).predictionResult =
          st.predictionResult) ∧
      ((onPredictResponse st r).error = some r.message ∧
        (onPredictResponse st r).predictionResult =
          st.predictionResult ∧
        (onPredictResponse st r).models = st.models) ∧
      onResultsResponse st r = st ∧
      onPerformanceResponse st r = st ∧
      onFeatureImportanceResponse st r = st ∧
      (dismissError st).error = none ∧
      (∀ p, (mkSuccess p).status = "success") ∧
      (∀ msg, (mkError msg).status = "error") := by
  intro st r h
  simp [onInitModelsResponse, onTuningResponse, onPredictResponse,
    onResultsResponse, onPerformanceResponse, onFeatureImportanceResponse,
    dismissError, mkSuccess, mkError, h]

/-- C2 amended witness: a concrete error response to initializeModels
surfaces its message. -/
theorem ml_error_handling_amended_witness :
    (onInitModelsResponse initialMLState
        ⟨"error", "boom", JVal.obj []⟩).error = some "boom" :=
  (ml_error_handling_amended initialMLState ⟨"error", "boom", JVal.obj []⟩
      (by decide)).1.1

/-- C3: with no trained model, predict fails with NotTrainedError
rather than crashing — a freshly initialized server is in that state —
every prediction failure is a NotTrainedError occurring exactly when no
model is trained, and with at least one trained model prediction always
produces a result. -/
theorem predict_not_trained :
    ∀ (st : ServerState) (x : RawInput),
      (st.trained = [] → predict st x = .error .NotTrainedError) ∧
      (∀ e, predict st x = .error e →
        e = .NotTrainedError ∧ st.trained = []) ∧
      (st.trained ≠ [] → ∃ r, predict st x = .ok r) ∧
      (∀ h v d s reg, (initServer h v d s reg).trained = []) := by
  intro st x
  refine ⟨predict_err_of_nil st x, ?_, predict_ok_of_ne_nil st x,
    fun _ _ _ _ _ => rfl⟩
  intro e he
  cases htr : st.trained with
  | nil =>
    rw [predict_err_of_nil st x htr] at he
    cases he
    exact ⟨rfl, rfl⟩
  | cons m rest =>
    obtain ⟨r, hr⟩ := predict_ok_of_ne_nil st x (by rw [htr]; simp)
    rw [hr] at he
    cases he

/-- C3 witness: on a concrete untrained server predict returns
NotTrainedError, and on a concrete server with trained models it
returns a result. -/
theorem predict_not_trained_witness :
    predict emptyServer demoInput = .error .NotTrainedError ∧
      ∃ r, predict demoServer demoInput = .ok r :=
  ⟨(predict_not_trained emptyServer demoInput).1 rfl,
   (predict_not_trained demoServer demoInput).2.2.1
     (List.cons_ne_nil _ _)⟩

/-- C4: every prediction result designates as best_model the name of a
trained model whose last-recorded R2 is maximal among all trained
models, reports that model's R2 as the confidence, maps that model's
output back to a host label as the recommendation, and lists every
trained model's output in all_predictions. -/
theorem best_model_recommendation :
    ∀ (st : ServerState) (x : RawInput) (r : PredictionResult),
      predict st x = .ok r →
      ∃ m ∈ st.trained,
        (∀ m2 ∈ st.trained, m2.metrics.r2 ≤ m.metrics.r2) ∧
        r.best_model = m.name ∧
        r.confidence = m.metrics.r2 ∧
        r.recommended_host =
          decodeHost st.hosts (m.predictFn (buildFeatures st.vms x)) ∧
        r.all_predictions = st.trained.map fun m2 =>
          (m2.name, m2.predictFn (buildFeatures st.vms x)) := by
  intro st x r h
  cases htr : st.trained with
  | nil =>
    rw [predict_err_of_nil st x htr] at h
    cases h
  | cons m0 rest =>
    unfold predict at h
    rw [htr] at h
    simp only [bestEntry] at h
    cases h
    exact ⟨rest.foldl pickBetter m0, foldl_pickBetter_mem m0 rest,
      foldl_pickBetter_le m0 rest, rfl, rfl, rfl, rfl⟩

/-- C4 witness: on a concrete server holding a model with R2 one half
and a model with R2 three quarters, the prediction designates the
second as best and recommends its decoded host. -/
theorem best_model_recommendation_witness :
    ∃ m ∈ demoServer.trained,
      (∀ m2 ∈ demoServer.trained, m2.metrics.r2 ≤ m.metrics.r2) ∧
      demoResult.best_model = m.name ∧
      demoResult.confidence = m.metrics.r2 ∧
      demoResult.recommended_host =
        decodeHost demoServer.hosts
          (m.predictFn (buildFeatures demoServer.vms demoInput)) ∧
      demoResult.all_predictions = demoServer.trained.map fun m2 =>
        (m2.name, m2.predictFn (buildFeatures demoServer.vms demoInput)) :=
  best_model_recommendation demoServer demoInput demoResult (by
    norm_num [predict, demoServer, bestEntry, pickBetter, demoTrainedA,
      demoTrainedB, demoResult, decodeHost, demoHosts])

/-- C5: the training/evaluation split puts exactly 80 percent of the
rows in the training subset and the remaining 20 percent in the test
subset whenever the row count divides evenly, the two subsets together
are a permutation of the dataset (so they are disjoint as a partition),
and train_all fits every registry entry on the training subset and
scores it on the test subset. -/
theorem train_test_split_spec :
    ∀ st : ServerState, 5 ∣ st.data.length →
      (trainTestSplit st.seed st.data).1.length =
          4 * st.data.length / 5 ∧
        (trainTestSplit st.seed st.data).2.length =
          st.data.length / 5 ∧
        ((trainTestSplit st.seed st.data).2 ++
            (trainTestSplit st.seed st.data).1).Perm st.data ∧
        (trainAll st).trained = st.registry.map fun e =>
          trainOne st.vms st.hosts e (trainTestSplit st.seed st.data).1
            (trainTestSplit st.seed st.data).2 := by
  intro st hdvd
  obtain ⟨k, hk⟩ := hdvd
  refine ⟨?_, ?_, ?_, rfl⟩
  · simp only [trainTestSplit, shuffle, List.length_drop,
      List.length_rotate]
    omega
  · simp only [trainTestSplit, shuffle, List.length_take,
      List.length_rotate]
    omega
  · simp only [trainTestSplit]
    rw [List.take_append_drop]
    exact List.rotate_perm _ _

/-- C5 witness: on a concrete five-row dataset the split yields four
training rows and one test row. -/
theorem train_test_split_spec_witness :
    (trainTestSplit emptyServer.seed emptyServer.data).1.length =
        4 * emptyServer.data.length / 5 ∧
      (trainTestSplit emptyServer.seed emptyServer.data).2.length =
        emptyServer.data.length / 5 :=
  ⟨(train_test_split_spec emptyServer ⟨1, rfl⟩).1,
   (train_test_split_spec emptyServer ⟨1, rfl⟩).2.1⟩

/-- C6: power_efficiency equals power divided by cpu_usage whenever
cpu_usage is nonzero, the division is guarded so that cpu_usage zero
yields the defined value 0 rather than a crash, prediction on a server
with a trained model always produces a result whatever the input
(including cpu at its boundary 0), and the feature vector at cpu 0 is
fully defined with a zero power_efficiency entry. -/
theorem power_efficiency_guard :
    (∀ p : ℚ, powerEfficiency p 0 = 0) ∧
      (∀ p c : ℚ, c ≠ 0 → powerEfficiency p c = p / c) ∧
      (∀ (st : ServerState) (x : RawInput), st.trained ≠ [] →
        ∃ r, predict st x = .ok r) ∧
      (∀ (vms : List String) (x : RawInput), x.cpu = 0 →
        buildFeatures vms x =
          [0, x.memory, x.network_io, x.power,
            (encodeName vms x.vm : ℚ),
            resourceIntensity 0 x.memory, 0]) := by
  refine ⟨?_, ?_, ?_, ?_⟩
  · intro p
    simp [powerEfficiency]
  · intro p c h
    simp [powerEfficiency, h]
  · intro st x h
    exact predict_ok_of_ne_nil st x h
  · intro vms x h
    simp [buildFeatures, h, powerEfficiency]

/-- C6 witness: concrete guard values and a concrete prediction at the
cpu = 0 boundary. -/
theorem power_efficiency_guard_witness :
    powerEfficiency 100 0 = 0 ∧ powerEfficiency 100 50 = 2 ∧
      ∃ r, predict demoServer zeroCpuInput = .ok r := by
  refine ⟨power_efficiency_guard.1 100, ?_,
    power_efficiency_guard.2.2.1 demoServer zeroCpuInput
      (List.cons_ne_nil _ _)⟩
  rw [power_efficiency_guard.2.1 100 50 (by norm_num)]
  norm_num

/-- C7: running train_all twice on identical data with identical seeds
and registries yields identical trained snapshots, hence identical MSE,
R2 and MAE values — in particular an immediate second run reproduces
the first run exactly. -/
theorem train_all_deterministic :
    ∀ stA stB : ServerState,
      stA.data = stB.data → stA.seed = stB.seed →
      stA.registry = stB.registry → stA.vms = stB.vms →
      stA.hosts = stB.hosts →
      (trainAll stA).trained = (trainAll stB).trained ∧
      (trainAll (trainAll stA)).trained = (trainAll stA).trained := by
  intro stA stB hd hs hr hv hh
  constructor
  · show stA.registry.map _ = stB.registry.map _
    rw [hd, hs, hr, hv, hh]
  · rfl

/-- C7 witness: two concrete servers sharing data, seed and registry
but in different training states produce the same trained snapshot. -/
theorem train_all_deterministic_witness :
    (trainAll emptyServer).trained = (trainAll demoServer).trained :=
  (train_all_deterministic emptyServer demoServer rfl rfl rfl rfl rfl).1

end VMC
